import Mathlib

/-!
Verification of the aumai-kisanmitra core: mandi price tracker, pest database,
and rule-based farmer assistant. The Lean definitions below are a shallow
embedding of `src/aumai_kisanmitra/models.py` and `src/aumai_kisanmitra/core.py`:
Python lists become `List`, Python `str` becomes `String`, `str.lower` becomes
`strLower`, the substring test `a in b` becomes infix containment on the
character lists, Python set comprehensions become `dedup` of the mapped list,
and the stable `sorted`/`list.sort` (Timsort) becomes `List.mergeSort`, which
is likewise stable. Prices (`float` with a `ge=0` pydantic bound) are embedded
as rationals, and the pydantic construction-time validation becomes an
`Except`-returning smart constructor.
-/

namespace Kisanmitra

/-- `AGRICULTURAL_DISCLAIMER` from `models.py`. -/
def AGRICULTURAL_DISCLAIMER : String :=
  "Verify recommendations with local agricultural experts before application."

/-- Python `str.lower`: lowercase the string character by character. -/
def strLower (s : String) : String :=
  ⟨s.data.map Char.toLower⟩

/-- `MandiPrice` record fields from `models.py` (validation is in `mkMandiPrice`). -/
structure MandiPrice where
  commodity : String
  market : String
  state : String
  min_price : ℚ
  max_price : ℚ
  modal_price : ℚ
  date : String
deriving DecidableEq, Repr

/-- Construction of a `MandiPrice`: pydantic checks `ge=0.0` on each of the three
price fields and raises a validation error when a field fails its bound. -/
def mkMandiPrice (commodity market state : String)
    (min_price max_price modal_price : ℚ) (date : String) :
    Except String MandiPrice :=
  if min_price < 0 then .error "min_price: Input should be greater than or equal to 0"
  else if max_price < 0 then .error "max_price: Input should be greater than or equal to 0"
  else if modal_price < 0 then .error "modal_price: Input should be greater than or equal to 0"
  else .ok ⟨commodity, market, state, min_price, max_price, modal_price, date⟩

/-- `MandiPriceTracker.add_price`: append to the store. -/
def add_price (store : List MandiPrice) (price : MandiPrice) : List MandiPrice :=
  store ++ [price]

/-- `MandiPriceTracker.get_prices(commodity, state=None)`: filter by commodity
(case-insensitively), then — only when `state` is truthy in Python, i.e. neither
`None` nor the empty string — by state, and sort by date descending (Python
`sorted(..., reverse=True)` is stable). -/
def get_prices (store : List MandiPrice) (commodity : String)
    (state : Option String := none) : List MandiPrice :=
  let comm_lower := strLower commodity
  let results := store.filter (fun p => strLower p.commodity == comm_lower)
  let results2 :=
    match state with
    | none => results
    | some s =>
        if s = "" then results
        else results.filter (fun p => strLower p.state == strLower s)
  results2.mergeSort (fun a b => b.date ≤ a.date)

/-- `MandiPriceTracker.price_trend(commodity, market)`: filter by commodity and
market (case-insensitively) and sort by date ascending. -/
def price_trend (store : List MandiPrice) (commodity market : String) :
    List MandiPrice :=
  let comm_lower := strLower commodity
  let mkt_lower := strLower market
  let results := store.filter
    (fun p => strLower p.commodity == comm_lower && strLower p.market == mkt_lower)
  results.mergeSort (fun a b => a.date ≤ b.date)

/-- `MandiPriceTracker.all_prices`: snapshot of the store. -/
def all_prices (store : List MandiPrice) : List MandiPrice :=
  store

/-- `PestInfo` record from `models.py`. -/
structure PestInfo where
  name : String
  affected_crops : List String
  symptoms : List String
  treatment : List String
  prevention : List String
deriving DecidableEq, Repr

/-- The static pest catalogue `_RAW_PESTS` from `core.py`, in source order;
`PestDatabase.__init__` turns each entry into a `PestInfo`. -/
def RAW_PESTS : List PestInfo := [
  ⟨"Brown Plant Hopper",
    ["Rice"],
    ["yellowing", "wilting", "hopperburn", "lodging"],
    ["Apply imidacloprid 17.8 SL @ 125 ml/ha", "Drain field for 3-4 days", "Apply BPMC 50 EC"],
    ["Use resistant varieties", "Avoid excessive nitrogen", "Maintain field drainage"]⟩,
  ⟨"Aphids",
    ["Wheat", "Mustard", "Cotton", "Okra", "Groundnut"],
    ["curling leaves", "yellowing", "sticky honeydew", "stunted growth", "sooty mould"],
    ["Spray dimethoate 30 EC @ 500 ml/ha", "Apply imidacloprid 17.8 SL @ 75 ml/ha", "Neem oil spray 5%"],
    ["Encourage natural predators (ladybird beetles)", "Avoid dense planting", "Remove weeds"]⟩,
  ⟨"Stem Borer",
    ["Rice", "Maize", "Sugarcane", "Sorghum"],
    ["dead heart", "white ear", "borer entry holes", "frass", "stem tunnelling"],
    ["Apply carbofuran 3G @ 20 kg/ha", "Release Trichogramma parasitoids", "Chlorpyrifos 20 EC"],
    ["Use light traps", "Destroy stubbles after harvest", "Balanced nitrogen application"]⟩,
  ⟨"Whitefly",
    ["Cotton", "Tomato", "Brinjal", "Chilli", "Cucurbits"],
    ["yellowing", "silver streaks", "sticky leaves", "sooty mould", "virus transmission"],
    ["Thiamethoxam 25 WG @ 100 g/ha", "Yellow sticky traps", "Neem seed kernel extract 5%"],
    ["Intercropping with marigold", "Remove infected plants", "Avoid over-irrigation"]⟩,
  ⟨"Thrips",
    ["Chilli", "Cotton", "Onion", "Groundnut"],
    ["silver streaks on leaves", "upward curling", "scarring", "bronzing"],
    ["Spinosad 45 SC @ 100 ml/ha", "Fipronil 5 SC @ 600 ml/ha"],
    ["Blue sticky traps", "Avoid planting near maize", "Reflective mulch"]⟩,
  ⟨"Red Spider Mite",
    ["Cotton", "Brinjal", "Okra", "Beans", "Maize"],
    ["bronze speckling", "webbing", "leaf drop", "yellowing"],
    ["Dicofol 18.5 EC @ 1.5 l/ha", "Sulphur 80 WP @ 2.5 kg/ha", "Abamectin 1.8 EC"],
    ["Overhead irrigation reduces mites", "Avoid dusty conditions", "Predatory mites"]⟩,
  ⟨"Mealy Bug",
    ["Cotton", "Grapes", "Pomegranate", "Papaya"],
    ["white cottony masses", "yellowing", "stunted growth", "sooty mould"],
    ["Profenofos 50 EC @ 1 l/ha", "Spray ethion 50 EC", "Release Cryptolaemus predators"],
    ["Destroy crop debris", "Ant management", "Avoid excess nitrogen"]⟩,
  ⟨"Helicoverpa (Bollworm)",
    ["Cotton", "Tomato", "Chickpea", "Pigeonpea", "Maize"],
    ["bored bolls/pods/fruit", "circular entry holes", "larval frass", "premature boll/pod drop"],
    ["Spinosad 45 SC @ 150 ml/ha", "Bt spray 750 g/ha", "Emamectin benzoate 5 SG"],
    ["Pheromone traps (5/ha)", "Use Bt cotton varieties", "Intercrop with sorghum"]⟩,
  ⟨"Cutworm",
    ["Wheat", "Maize", "Vegetables", "Cotton"],
    ["cut seedlings at ground level", "wilting", "night feeding"],
    ["Chlorpyrifos 20 EC @ 2.5 l/ha soil drench", "Poison bait (bran + chlorpyrifos)"],
    ["Deep ploughing in summer", "Remove weeds", "Flood irrigation before planting"]⟩,
  ⟨"Leaf Folder",
    ["Rice"],
    ["longitudinal folded leaves", "white leaf streaks", "feeding damage"],
    ["Chlorpyrifos 20 EC @ 1.5 l/ha", "Monocrotophos 36 WSC @ 750 ml/ha"],
    ["Balanced fertilisation", "Avoid dense planting", "Light traps"]⟩,
  ⟨"Jassid (Leafhopper)",
    ["Cotton", "Groundnut", "Okra", "Brinjal"],
    ["yellowing from leaf margins", "leaf curl downward", "burning appearance"],
    ["Imidacloprid 70 WG @ 35 g/ha", "Thiamethoxam 25 WG @ 80 g/ha"],
    ["Hairy-leaved varieties", "Avoid close planting", "Yellow sticky traps"]⟩,
  ⟨"Powdery Mildew",
    ["Wheat", "Grapes", "Cucurbits", "Pea", "Mustard"],
    ["white powdery patches", "yellowing below", "premature leaf drop", "stunted growth"],
    ["Sulphur 80 WP @ 2.5 kg/ha", "Propiconazole 25 EC @ 500 ml/ha", "Hexaconazole 5 EC"],
    ["Resistant varieties", "Avoid overhead irrigation", "Proper plant spacing"]⟩,
  ⟨"Blast (Rice Blast)",
    ["Rice"],
    ["diamond-shaped lesions", "eye-shaped spots", "neck rot", "panicle blast"],
    ["Tricyclazole 75 WP @ 300 g/ha", "Isoprothiolane 40 EC @ 750 ml/ha"],
    ["Balanced nitrogen", "Resistant varieties", "Silicon application"]⟩,
  ⟨"Late Blight",
    ["Potato", "Tomato"],
    ["water-soaked lesions", "white mouldy growth", "rapid wilting", "brown rotting tubers"],
    ["Metalaxyl + Mancozeb 72 WP @ 2 kg/ha", "Cymoxanil + Mancozeb"],
    ["Certified disease-free seed", "Avoid over-irrigation", "Copper fungicides preventively"]⟩,
  ⟨"Yellow Rust",
    ["Wheat", "Barley"],
    ["yellow stripe pustules", "yellow powder on leaves", "stunted growth"],
    ["Propiconazole 25 EC @ 500 ml/ha", "Tebuconazole 250 EW @ 750 ml/ha"],
    ["Resistant varieties", "Early sowing", "Balanced nutrition"]⟩,
  ⟨"Leaf Blight",
    ["Rice", "Maize", "Wheat"],
    ["water-soaked lesions turning brown", "leaf blighting", "straw-coloured patches"],
    ["Validamycin 3 L @ 2 l/ha", "Copper oxychloride 50 WP @ 3 kg/ha"],
    ["Balanced NPK", "Proper drainage", "Resistant varieties"]⟩,
  ⟨"Fruit Borer",
    ["Brinjal", "Tomato", "Chilli"],
    ["bored fruits", "dropping fruits", "larval frass at entry"],
    ["Emamectin benzoate 5 SG @ 220 g/ha", "Spinosad 45 SC @ 100 ml/ha"],
    ["Pheromone traps", "Remove damaged fruits", "Inter-cropping"]⟩,
  ⟨"Nematodes (Root Knot)",
    ["Tomato", "Brinjal", "Groundnut", "Banana", "Cucurbits"],
    ["root galls/knots", "stunting", "yellowing", "poor yield", "wilting"],
    ["Carbofuran 3G @ 1 kg ai/ha", "Phorate 10G @ 1 kg ai/ha", "Biocontrol with Paecilomyces"],
    ["Crop rotation with cereals", "Marigold inter-cropping", "Soil solarisation"]⟩,
  ⟨"Downy Mildew",
    ["Maize", "Pearl Millet", "Grapes", "Cucurbits"],
    ["downy white growth on underside", "chlorotic patches", "downcurled leaves"],
    ["Metalaxyl 8% + Mancozeb 64% WP @ 2.5 kg/ha", "Fosetyl-Al 80 WP"],
    ["Seed treatment with metalaxyl", "Avoid overhead irrigation", "Resistant varieties"]⟩,
  ⟨"Bacterial Wilt",
    ["Tomato", "Brinjal", "Pepper", "Potato"],
    ["sudden wilting", "vascular browning", "bacterial ooze in water test"],
    ["No effective chemical cure; remove and destroy infected plants", "Streptomycin sulphate as preventive"],
    ["Resistant varieties", "Soil sterilisation", "Crop rotation", "Avoid wounding roots"]⟩,
  ⟨"Caterpillar (Army Worm)",
    ["Maize", "Sorghum", "Rice", "Wheat"],
    ["ragged leaf feeding", "defoliation", "windowpane feeding", "frass"],
    ["Chlorpyrifos 20 EC @ 2.5 l/ha", "Emamectin benzoate 5 SG", "Spinetoram 11.7 SC"],
    ["Light traps", "Birds on field", "Early planting"]⟩,
  ⟨"Fall Armyworm",
    ["Maize", "Sorghum", "Cotton", "Rice"],
    ["ragged feeding in whorl", "frass like sawdust", "irregular holes in leaves"],
    ["Emamectin benzoate 5 SG @ 220 g/ha", "Spinetoram 11.7 SC @ 375 ml/ha", "Bt spray"],
    ["Intercrop with Napier grass", "Pheromone traps", "Avoid late planting"]⟩,
  ⟨"Diamond Back Moth",
    ["Cabbage", "Cauliflower", "Mustard", "Radish"],
    ["window pane feeding", "shot holes", "skeletonised leaves", "greenish larvae on underside"],
    ["Spinosad 45 SC @ 150 ml/ha", "Emamectin benzoate 5 SG @ 200 g/ha", "Chlorfenapyr 10 SC"],
    ["Bt crops", "Pheromone traps", "Natural predators"]⟩,
  ⟨"Pod Borer (Gram)",
    ["Chickpea", "Pigeonpea", "Cowpea"],
    ["bored pods", "excreta near entry holes", "damaged seeds"],
    ["Endosulfan 35 EC @ 1.5 l/ha", "Profenofos 50 EC @ 1 l/ha"],
    ["Intercrop chickpea with coriander", "Pheromone traps", "Early sowing"]⟩,
  ⟨"Rust (Groundnut)",
    ["Groundnut"],
    ["small orange-brown pustules", "yellowing", "defoliation"],
    ["Mancozeb 75 WP @ 2.5 kg/ha", "Chlorothalonil 75 WP @ 1.5 kg/ha"],
    ["Resistant varieties", "Seed treatment with thiram", "Early sowing"]⟩,
  ⟨"Collar Rot",
    ["Groundnut", "Chickpea", "Sunflower"],
    ["rotting at collar region", "dark brown lesion", "plant collapse"],
    ["Soil drench with carbendazim 0.1%", "Thiram seed treatment"],
    ["Seed treatment", "Avoid water-logged conditions", "Crop rotation"]⟩,
  ⟨"White Grub",
    ["Sugarcane", "Groundnut", "Maize", "Potato"],
    ["plants pulled out easily", "severed roots", "yellowing", "wilting"],
    ["Chlorpyrifos 20 EC soil incorporation", "Imidacloprid 70 WS seed treatment"],
    ["Summer ploughing to expose grubs", "Light traps for adults", "Neem cake application"]⟩,
  ⟨"Scales",
    ["Mango", "Citrus", "Coconut", "Grapes"],
    ["encrusted bark/leaves", "yellowing", "sooty mould", "branch die-back"],
    ["DNOC 40 EC @ 1.5 l/ha in water", "Machine oil emulsion spray", "Dimethoate 30 EC"],
    ["Prune infested branches", "Encourage natural predators", "Ant management"]⟩,
  ⟨"Mango Hopper",
    ["Mango"],
    ["yellowing and drying of inflorescences", "honeydew secretion", "sooty mould"],
    ["Imidacloprid 17.8 SL @ 0.5 ml/l water", "Carbaryl 50 WP @ 2 g/l water"],
    ["Prune dense canopy", "Remove weeds", "Spray at panicle emergence"]⟩,
  ⟨"Coconut Mite (Eriophyid)",
    ["Coconut"],
    ["triangular brown patches on husk", "scarring", "stunted nut"],
    ["Wettable sulphur 80 WP @ 2 g/l water", "Dicofol 18.5 EC"],
    ["Avoid water stress", "Remove dried leaves", "Summer spraying"]⟩]

/-- `PestDatabase.all_pests`: snapshot of the catalogue. -/
def all_pests : List PestInfo :=
  RAW_PESTS

/-- Python substring test `needle in hay` on strings. -/
def strContains (needle hay : String) : Bool :=
  decide (needle.data <:+: hay.data)

/-- The overlap score computed inside `PestDatabase.identify` for one pest:
Python forms the set `{s.lower() for s in symptoms}` (so duplicate observed
symptoms, including case variants, collapse) and counts its members `s` with
`any(s in ps for ps in pest_symptoms_lower)`. -/
def overlapScore (symptoms : List String) (pest : PestInfo) : ℕ :=
  ((symptoms.map strLower).dedup.filter
    (fun s => (pest.symptoms.map strLower).dedup.any
      (fun ps => strContains s ps))).length

/-- `PestDatabase.identify`: score every pest, keep positive scores as
`(score, pest)` pairs, stable-sort by score descending, return the pests. -/
def identify (symptoms : List String) : List PestInfo :=
  let scored : List (ℕ × PestInfo) := RAW_PESTS.filterMap (fun pest =>
    let overlap := overlapScore symptoms pest
    if 0 < overlap then some (overlap, pest) else none)
  (scored.mergeSort (fun x y => y.1 ≤ x.1)).map Prod.snd

/-- `PestDatabase.by_crop`: case-insensitive exact match on affected crops. -/
def by_crop (crop_name : String) : List PestInfo :=
  RAW_PESTS.filter (fun p => p.affected_crops.any
    (fun c => strLower c == strLower crop_name))

/-- The specification's description of `identify`, with the score amended to
count *distinct* lowercased observed symptoms: records scoring 0 are excluded
and the survivors are stable-sorted by score descending (catalogue order on
ties). -/
def specIdentify (symptoms : List String) : List PestInfo :=
  (RAW_PESTS.filter (fun p => 0 < overlapScore symptoms p)).mergeSort
    (fun a b => overlapScore symptoms b ≤ overlapScore symptoms a)

/-- The overlap score exactly as the claim words it: the count of observed
symptoms (over the given list, duplicates counted separately) matched by some
catalogued symptom. -/
def claimOverlapScore (symptoms : List String) (pest : PestInfo) : ℕ :=
  (symptoms.filter
    (fun s => (pest.symptoms.map strLower).dedup.any
      (fun ps => strContains (strLower s) ps))).length

/-- `identify` as the claim describes it, using the per-occurrence score. -/
def claimIdentify (symptoms : List String) : List PestInfo :=
  (RAW_PESTS.filter (fun p => 0 < claimOverlapScore symptoms p)).mergeSort
    (fun a b => claimOverlapScore symptoms b ≤ claimOverlapScore symptoms a)

/-- `FarmerQuery` from `models.py` (`location` defaults to `None`). -/
structure FarmerQuery where
  query : String
  language : String := "en"
  location : Option String := none
deriving DecidableEq, Repr

/-- `FarmerResponse` from `models.py`. -/
structure FarmerResponse where
  answer : String
  sources : List String
  language : String
  disclaimer : String
deriving DecidableEq, Repr

/-- The `_KEYWORD_RESPONSES` rule table from `core.py`, in source order:
(keywords, answer, sources). -/
def KEYWORD_RESPONSES : List (List String × String × List String) := [
  (["price", "mandi", "rate", "sell", "market"],
   "Mandi prices vary by location and date. Use the \x27prices\x27 command or API to fetch current prices for your commodity and state. Agmarknet (agmarknet.gov.in) publishes daily mandi arrivals and prices across India.",
   ["Agmarknet (agmarknet.gov.in)", "eNAM (enam.gov.in)"]),
  (["pest", "insect", "bug", "disease", "fungus", "infection"],
   "Identify the pest or disease by its visible symptoms. Use the \x27pest\x27 command with symptom keywords to get matching pests and treatments. Always consult your local Krishi Vigyan Kendra (KVK) for confirmation.",
   ["ICAR Pest Management", "Krishi Vigyan Kendra network"]),
  (["fertilizer", "urea", "dap", "npk", "manure", "compost"],
   "Fertilizer requirements depend on soil test results. Get a soil health card from your state agriculture department. Base fertilizer application on NPK soil test recommendations. ICAR recommends integrated nutrient management combining inorganic and organic sources.",
   ["Soil Health Card scheme (soilhealth.dac.gov.in)", "ICAR nutrient management guidelines"]),
  (["irrigation", "water", "drip", "sprinkler", "rain"],
   "Irrigation scheduling should be based on crop stage and soil moisture. Drip irrigation can save 40-50% water compared to flood irrigation. PM Krishi Sinchayee Yojana provides subsidies for micro-irrigation systems.",
   ["PM Krishi Sinchayee Yojana", "ICAR crop water requirement data"]),
  (["seed", "variety", "sow", "hybrid", "certified"],
   "Use certified seeds from authorised dealers to ensure germination rates and disease resistance. State seed corporations and ICAR release improved varieties. Consult your block agriculture officer for variety recommendations suited to your region.",
   ["National Seeds Corporation (seedsindia.gov.in)", "ICAR variety releases"]),
  (["weather", "rain", "flood", "drought", "forecast"],
   "Monitor IMD weather forecasts at mausam.imd.gov.in. Agromet advisories are issued every Tuesday and Friday for all districts. Subscribe to SMS alerts from your state agriculture department.",
   ["IMD Agromet Advisory (agromet.imd.gov.in)", "Kisan Suvidha app"]),
  (["loan", "credit", "kcc", "finance", "money"],
   "Kisan Credit Card (KCC) provides short-term credit at 7% interest (4% with prompt repayment). Apply through your nearest bank or primary agriculture credit society. PM Kisan scheme provides Rs 6000 per year in three instalments.",
   ["Kisan Credit Card (RBI guidelines)", "PM-KISAN (pmkisan.gov.in)"]),
  (["insurance", "fasal bima", "pradhan mantri"],
   "Pradhan Mantri Fasal Bima Yojana (PMFBY) covers crop loss due to natural calamities at very low premium rates (2% for kharif, 1.5% for rabi). Enrol through banks or Common Service Centres before the cutoff date.",
   ["PMFBY (pmfby.gov.in)", "Krishi Rakshak portal"]),
  (["msp", "minimum support price", "procurement"],
   "The government announces MSP for 23 kharif and rabi crops. Procurement happens through FCI, NAFED, and state agencies. Register on eMitra or msprice portals for selling at MSP centres. Check latest MSP at agricoop.gov.in.",
   ["Commission for Agricultural Costs & Prices (cacp.gov.in)", "FCI (fci.gov.in)"])]

/-- The default answer built into `FarmerAssistant.respond`. -/
def defaultAnswer : String :=
  "I can help with crop prices, pest identification, fertilizers, irrigation, seeds, weather, loans, insurance, and MSP. Please describe your query in more detail or use specific commands for prices and pest identification."

/-- The default source list built into `FarmerAssistant.respond`. -/
def defaultSources : List String :=
  ["Kisan Call Centre (1800-180-1551)", "Kisan Suvidha App"]

/-- A rule's score against the lowercased query:
`sum(1 for kw in keywords if kw in query_lower)`. -/
def ruleScore (query_lower : String) (rule : List String × String × List String) : ℕ :=
  (rule.1.filter (fun kw => strContains kw query_lower)).length

/-- One iteration of the best-rule loop in `respond`: replace the current best
only on a strictly higher score. -/
def stepBest (query_lower : String) (best : ℕ × String × List String)
    (rule : List String × String × List String) : ℕ × String × List String :=
  let score := ruleScore query_lower rule
  if best.1 < score then (score, rule.2.1, rule.2.2) else best

/-- The location follow-up text appended by `respond` (an f-string in the
source). -/
def locationText (loc : String) : String :=
  " For location-specific advice in " ++ loc ++
    ", contact your local Block Agriculture Officer or Krishi Vigyan Kendra."

/-- The `if query.location:` step of `respond`: Python truthiness skips both
`None` and the empty string. -/
def applyLocation (answer : String) (location : Option String) : String :=
  match location with
  | none => answer
  | some loc => if loc = "" then answer else answer ++ locationText loc

/-- `FarmerAssistant.respond` from `core.py`. -/
def respond (query : FarmerQuery) : FarmerResponse :=
  let query_lower := strLower query.query
  let best := KEYWORD_RESPONSES.foldl (stepBest query_lower)
    (0, defaultAnswer, defaultSources)
  { answer := applyLocation best.2.1 query.location
    sources := best.2.2
    language := query.language
    disclaimer := AGRICULTURAL_DISCLAIMER }

/-! ## Helper lemmas -/

/-- `mergeSort` on a two-element list just compares the two elements. -/
theorem mergeSort_pair {α : Type _} (le : α → α → Bool) (a b : α) :
    [a, b].mergeSort le = if le a b then [a, b] else [b, a] := by
  rw [List.mergeSort]
  simp only [List.splitInTwo_fst, List.splitInTwo_snd, List.length_cons,
    List.length_nil, List.take_succ_cons, List.take_zero, List.drop_succ_cons,
    List.drop_zero, List.mergeSort_singleton]
  rw [List.cons_merge_cons]
  by_cases h : le a b <;> simp [h]

/-- A merge sort by `date` descending yields a list pairwise non-increasing in
`date`. -/
theorem pairwise_mergeSort_date_desc (l : List MandiPrice) :
    (l.mergeSort (fun a b => b.date ≤ a.date)).Pairwise
      (fun a b => b.date ≤ a.date) := by
  have h := @List.sorted_mergeSort MandiPrice
    (fun a b => decide (b.date ≤ a.date))
    (fun a b c h1 h2 => by
      simp only [decide_eq_true_eq] at h1 h2 ⊢
      exact le_trans h2 h1)
    (fun a b => by
      simpa using le_total b.date a.date) l
  exact h.imp (fun hab => of_decide_eq_true hab)

/-- A merge sort by `date` ascending yields a list pairwise non-decreasing in
`date`. -/
theorem pairwise_mergeSort_date_asc (l : List MandiPrice) :
    (l.mergeSort (fun a b => a.date ≤ b.date)).Pairwise
      (fun a b => a.date ≤ b.date) := by
  have h := @List.sorted_mergeSort MandiPrice
    (fun a b => decide (a.date ≤ b.date))
    (fun a b c h1 h2 => by
      simp only [decide_eq_true_eq] at h1 h2 ⊢
      exact le_trans h1 h2)
    (fun a b => by
      simpa using le_total a.date b.date) l
  exact h.imp (fun hab => of_decide_eq_true hab)

/-! ## Claims about the price tracker -/

/-- Claim C4: `get_prices` returns records with dates non-increasing (newest
first) and `price_trend` returns records with dates non-decreasing (oldest
first), for every store, commodity, state, and market. -/
theorem price_query_sort_order :
    (∀ store commodity state,
      (get_prices store commodity state).Pairwise (fun a b => b.date ≤ a.date)) ∧
    (∀ store commodity market,
      (price_trend store commodity market).Pairwise (fun a b => a.date ≤ b.date)) := by
  constructor
  · intro store commodity state
    simp only [get_prices]
    exact pairwise_mergeSort_date_desc _
  · intro store commodity market
    simp only [price_trend]
    exact pairwise_mergeSort_date_asc _

/-- Claim C10: passing the empty string as the state filter is the same as
passing no state at all, because Python tests the state with truthiness. -/
theorem get_prices_empty_state (store : List MandiPrice) (commodity : String) :
    get_prices store commodity (some "") = get_prices store commodity none := rfl

/-- Claim C5: a state-filtered query is a sub-filter of the unfiltered query
with the state matched case-insensitively, and the commodity match is
case-insensitive (mixed-case commodity variants give identical results). -/
theorem price_query_filter_spec :
    (∀ store commodity s, s ≠ "" →
      ∀ p ∈ get_prices store commodity (some s),
        p ∈ get_prices store commodity none ∧ strLower p.state = strLower s) ∧
    (∀ store c₁ c₂ state, strLower c₁ = strLower c₂ →
      get_prices store c₁ state = get_prices store c₂ state) := by
  constructor
  · intro store commodity s hs p hp
    simp only [get_prices, if_neg hs, List.mem_mergeSort, List.mem_filter,
      beq_iff_eq] at hp ⊢
    exact ⟨hp.1, hp.2⟩
  · intro store c₁ c₂ state h
    simp only [get_prices, h]

/-- A successfully constructed `MandiPrice` has non-negative prices. -/
theorem mkMandiPrice_ok_nonneg {c m st : String} {mn mx md : ℚ} {d : String}
    {p : MandiPrice} (hp : mkMandiPrice c m st mn mx md d = .ok p) :
    0 ≤ p.min_price ∧ 0 ≤ p.max_price ∧ 0 ≤ p.modal_price := by
  by_cases h1 : mn < 0
  · simp [mkMandiPrice, h1] at hp
  · by_cases h2 : mx < 0
    · simp [mkMandiPrice, h1, h2] at hp
    · by_cases h3 : md < 0
      · simp [mkMandiPrice, h1, h2, h3] at hp
      · simp only [mkMandiPrice, h1, h2, h3, if_false, Except.ok.injEq] at hp
        subst hp
        exact ⟨not_lt.1 h1, not_lt.1 h2, not_lt.1 h3⟩

/-- Claim C7: constructing a price observation fails exactly when one of the
three prices is negative, a successfully constructed observation carries
non-negative prices, and a store populated only with successfully constructed
observations holds only non-negative prices. -/
theorem mandi_price_validation :
    (∀ commodity market state (mn mx md : ℚ) date,
      (∃ e, mkMandiPrice commodity market state mn mx md date = .error e) ↔
        mn < 0 ∨ mx < 0 ∨ md < 0) ∧
    (∀ commodity market state (mn mx md : ℚ) date p,
      mkMandiPrice commodity market state mn mx md date = .ok p →
        0 ≤ p.min_price ∧ 0 ≤ p.max_price ∧ 0 ≤ p.modal_price) ∧
    (∀ store : List MandiPrice,
      (∀ p ∈ store, ∃ c m st mn mx md d, mkMandiPrice c m st mn mx md d = .ok p) →
      ∀ p ∈ store, 0 ≤ p.min_price ∧ 0 ≤ p.max_price ∧ 0 ≤ p.modal_price) := by
  refine ⟨?_, ?_, ?_⟩
  · intro commodity market state mn mx md date
    unfold mkMandiPrice
    split_ifs with h1 h2 h3
    · exact iff_of_true ⟨_, rfl⟩ (Or.inl h1)
    · exact iff_of_true ⟨_, rfl⟩ (Or.inr (Or.inl h2))
    · exact iff_of_true ⟨_, rfl⟩ (Or.inr (Or.inr h3))
    · refine iff_of_false (fun he => ?_) (fun hor => hor.elim h1 (fun h => h.elim h2 h3))
      obtain ⟨e, he⟩ := he
      simp at he
  · intro commodity market state mn mx md date p hp
    exact mkMandiPrice_ok_nonneg hp
  · intro store hstore p hp
    obtain ⟨c, m, st, mn, mx, md, d, hmk⟩ := hstore p hp
    exact mkMandiPrice_ok_nonneg hmk

/-- If no observed symptom matches any catalogued symptom, `identify` returns
the empty list. -/
theorem identify_eq_nil_of_no_match (symptoms : List String)
    (h : ∀ s ∈ symptoms, ∀ p ∈ RAW_PESTS, ∀ ps ∈ p.symptoms,
      ¬ strContains (strLower s) (strLower ps)) :
    identify symptoms = [] := by
  have hscore : ∀ p ∈ RAW_PESTS, overlapScore symptoms p = 0 := by
    intro p hp
    unfold overlapScore
    rw [List.length_eq_zero]
    refine List.filter_eq_nil_iff.2 (fun s hs => ?_)
    have hs' : s ∈ symptoms.map strLower := List.mem_dedup.1 hs
    obtain ⟨s₀, hs₀, rfl⟩ := List.mem_map.1 hs'
    simp only [List.any_eq_true, not_exists]
    rintro ps ⟨hps, hcon⟩
    have hps' : ps ∈ (p.symptoms.map strLower) := List.mem_dedup.1 hps
    obtain ⟨ps₀, hps₀, rfl⟩ := List.mem_map.1 hps'
    exact h s₀ hs₀ p hp ps₀ hps₀ hcon
  unfold identify
  have hfm : RAW_PESTS.filterMap (fun pest =>
      let overlap := overlapScore symptoms pest
      if 0 < overlap then some (overlap, pest) else none) = [] := by
    refine List.filterMap_eq_nil_iff.2 (fun pest hp => ?_)
    simp only [hscore pest hp]
    rfl
  rw [hfm]
  simp

/-- Claim C6: every lookup is total and returns an empty list on unmatched
input: unknown commodity, state, or market for the price queries, unknown crop
for `by_crop`, and an empty or unmatched symptom list for `identify`. -/
theorem lookup_totality_empty :
    (∀ store commodity state, (∀ p ∈ store, strLower p.commodity ≠ strLower commodity) →
      get_prices store commodity state = []) ∧
    (∀ store commodity s, s ≠ "" → (∀ p ∈ store, strLower p.state ≠ strLower s) →
      get_prices store commodity (some s) = []) ∧
    (∀ store commodity market, (∀ p ∈ store, strLower p.market ≠ strLower market) →
      price_trend store commodity market = []) ∧
    (∀ store commodity market, (∀ p ∈ store, strLower p.commodity ≠ strLower commodity) →
      price_trend store commodity market = []) ∧
    (∀ crop, (∀ p ∈ RAW_PESTS, ∀ c ∈ p.affected_crops, strLower c ≠ strLower crop) →
      by_crop crop = []) ∧
    identify [] = [] ∧
    (∀ symptoms, (∀ s ∈ symptoms, ∀ p ∈ RAW_PESTS, ∀ ps ∈ p.symptoms,
        ¬ strContains (strLower s) (strLower ps)) →
      identify symptoms = []) := by
  refine ⟨?_, ?_, ?_, ?_, ?_, ?_, identify_eq_nil_of_no_match⟩
  · intro store commodity state h
    have hf : store.filter (fun p => strLower p.commodity == strLower commodity) = [] :=
      List.filter_eq_nil_iff.2 (fun p hp => by simpa using h p hp)
    simp only [get_prices, hf]
    cases state with
    | none => simp
    | some s =>
        by_cases hs : s = "" <;> simp [hs]
  · intro store commodity s hs h
    simp only [get_prices, if_neg hs]
    have hf2 : (store.filter (fun p => strLower p.commodity == strLower commodity)).filter
        (fun p => strLower p.state == strLower s) = [] := by
      refine List.filter_eq_nil_iff.2 (fun p hp => ?_)
      have hmem : p ∈ store := (List.mem_filter.1 hp).1
      simpa using h p hmem
    rw [hf2]
    simp
  · intro store commodity market h
    have hf : store.filter
        (fun p => strLower p.commodity == strLower commodity &&
          strLower p.market == strLower market) = [] := by
      refine List.filter_eq_nil_iff.2 (fun p hp => ?_)
      simp only [Bool.and_eq_true, beq_iff_eq, not_and]
      exact fun _ => h p hp
    simp only [price_trend, hf]
    simp
  · intro store commodity market h
    have hf : store.filter
        (fun p => strLower p.commodity == strLower commodity &&
          strLower p.market == strLower market) = [] := by
      refine List.filter_eq_nil_iff.2 (fun p hp => ?_)
      simp only [Bool.and_eq_true, beq_iff_eq, not_and]
      exact fun hc => absurd hc (h p hp)
    simp only [price_trend, hf]
    simp
  · intro crop h
    refine List.filter_eq_nil_iff.2 (fun p hp => ?_)
    simp only [List.any_eq_true, beq_iff_eq, not_exists]
    rintro c ⟨hc, hceq⟩
    exact h p hp c hc hceq
  · exact identify_eq_nil_of_no_match [] (fun s hs => absurd hs (List.not_mem_nil s))

/-! ## Claims about pest identification -/

/-- Collecting `(score, item)` pairs for positive scores is filtering by
positivity and then pairing. -/
theorem filterMap_pos_score {α : Type _} (g : α → ℕ) (l : List α) :
    l.filterMap (fun x => if 0 < g x then some (g x, x) else none) =
      (l.filter (fun x => 0 < g x)).map (fun x => (g x, x)) := by
  induction l with
  | nil => rfl
  | cons a t ih =>
      by_cases h : 0 < g a <;>
        simp [List.filterMap_cons, List.filter_cons, h, ih]

/-- `identify` equals the filter-then-stable-sort formulation over pest
records. -/
theorem identify_eq_specIdentify (symptoms : List String) :
    identify symptoms = specIdentify symptoms := by
  unfold identify specIdentify
  rw [filterMap_pos_score (overlapScore symptoms) RAW_PESTS]
  rw [@List.map_mergeSort (ℕ × PestInfo) PestInfo
    (fun x y => y.1 ≤ x.1)
    (fun a b => overlapScore symptoms b ≤ overlapScore symptoms a)
    Prod.snd
    ((RAW_PESTS.filter (fun x => 0 < overlapScore symptoms x)).map
      (fun x => (overlapScore symptoms x, x)))
    ?_]
  · rw [List.map_map]
    have : (Prod.snd ∘ fun x : PestInfo => (overlapScore symptoms x, x)) = id := rfl
    rw [this, List.map_id]
  · intro a ha b hb
    obtain ⟨x, _, rfl⟩ := List.mem_map.1 ha
    obtain ⟨y, _, rfl⟩ := List.mem_map.1 hb
    rfl

/-- The score comparator used on pest records is transitive. -/
theorem scoreCmp_trans (g : PestInfo → ℕ) :
    ∀ a b c : PestInfo, (decide (g b ≤ g a)) → (decide (g c ≤ g b)) →
      (decide (g c ≤ g a)) := by
  intro a b c h1 h2
  simp only [decide_eq_true_eq] at h1 h2 ⊢
  exact le_trans h2 h1

/-- The score comparator used on pest records is total. -/
theorem scoreCmp_total (g : PestInfo → ℕ) :
    ∀ a b : PestInfo, (decide (g b ≤ g a)) || (decide (g a ≤ g b)) := by
  intro a b
  simpa using le_total (g b) (g a)

/-- Claim C2 (amended: the score counts *distinct* lowercased observed
symptoms): `identify` equals the claim's filter-and-sort description, its
output is sorted by overlap score descending, and two tied pests keep their
catalogue order in the output. -/
theorem identify_score_sort (symptoms : List String) :
    identify symptoms = specIdentify symptoms ∧
    (identify symptoms).Pairwise
      (fun a b => overlapScore symptoms b ≤ overlapScore symptoms a) ∧
    (∀ p q, List.Sublist [p, q] RAW_PESTS →
      overlapScore symptoms p = overlapScore symptoms q →
      0 < overlapScore symptoms q →
      List.Sublist [p, q] (identify symptoms)) := by
  refine ⟨identify_eq_specIdentify symptoms, ?_, ?_⟩
  · rw [identify_eq_specIdentify]
    unfold specIdentify
    have h := @List.sorted_mergeSort PestInfo
      (fun a b => decide (overlapScore symptoms b ≤ overlapScore symptoms a))
      (scoreCmp_trans (overlapScore symptoms))
      (scoreCmp_total (overlapScore symptoms))
      (RAW_PESTS.filter (fun p => 0 < overlapScore symptoms p))
    exact h.imp (fun hab => of_decide_eq_true hab)
  · intro p q hsub heq hpos
    rw [identify_eq_specIdentify]
    unfold specIdentify
    refine List.sublist_mergeSort
      (scoreCmp_trans (overlapScore symptoms))
      (scoreCmp_total (overlapScore symptoms))
      (List.pairwise_pair.mpr (by simp [heq])) ?_
    have hfil := hsub.filter (fun p => 0 < overlapScore symptoms p)
    rwa [List.filter_cons_of_pos, List.filter_cons_of_pos, List.filter_nil] at hfil
    · simpa using hpos
    · simpa using heq ▸ hpos

/-- Claim C2, counterexample to the unamended wording: with a duplicated
observed symptom the code (which deduplicates) and the claim (which counts
every occurrence) rank the two matching pests in opposite orders. -/
theorem identify_counterexample :
    identify ["hopperburn", "triangular", "triangular"] ≠
      claimIdentify ["hopperburn", "triangular", "triangular"] := by
  have hA : identify ["hopperburn", "triangular", "triangular"] =
      [RAW_PESTS.get ⟨0, by decide⟩, RAW_PESTS.get ⟨29, by decide⟩] := by
    rw [identify_eq_specIdentify]
    unfold specIdentify
    rw [show RAW_PESTS.filter
        (fun p => 0 < overlapScore ["hopperburn", "triangular", "triangular"] p) =
        [RAW_PESTS.get ⟨0, by decide⟩, RAW_PESTS.get ⟨29, by decide⟩] by decide]
    rw [mergeSort_pair, if_pos (by decide)]
  have hB : claimIdentify ["hopperburn", "triangular", "triangular"] =
      [RAW_PESTS.get ⟨29, by decide⟩, RAW_PESTS.get ⟨0, by decide⟩] := by
    unfold claimIdentify
    rw [show RAW_PESTS.filter
        (fun p => 0 < claimOverlapScore ["hopperburn", "triangular", "triangular"] p) =
        [RAW_PESTS.get ⟨0, by decide⟩, RAW_PESTS.get ⟨29, by decide⟩] by decide]
    rw [mergeSort_pair, if_neg (by decide)]
  rw [hA, hB]
  decide

/-! ## Claims about the farmer assistant -/

/-- If no rule beats the running best, the best-rule loop leaves it unchanged. -/
theorem foldl_stepBest_of_le (ql : String) :
    ∀ (rs : List (List String × String × List String))
      (b : ℕ × String × List String),
    (∀ r ∈ rs, ruleScore ql r ≤ b.1) → rs.foldl (stepBest ql) b = b := by
  intro rs
  induction rs with
  | nil => intro b _; rfl
  | cons r t ih =>
      intro b hb
      have h1 : ¬ b.1 < ruleScore ql r := not_lt.2 (hb r (List.mem_cons_self r t))
      have hstep : stepBest ql b r = b := by
        unfold stepBest
        rw [if_neg h1]
      rw [List.foldl_cons, hstep]
      exact ih b (fun x hx => hb x (List.mem_cons_of_mem r hx))

/-- The payload of the best-rule loop is the initial payload or one of the
rules' payloads. -/
theorem foldl_stepBest_payload (ql : String) :
    ∀ (rs : List (List String × String × List String))
      (b : ℕ × String × List String),
    (rs.foldl (stepBest ql) b).2 = b.2 ∨
      ∃ r ∈ rs, (rs.foldl (stepBest ql) b).2 = r.2 := by
  intro rs
  induction rs with
  | nil => intro b; exact Or.inl rfl
  | cons r t ih =>
      intro b
      rw [List.foldl_cons]
      rcases ih (stepBest ql b r) with h | ⟨x, hx, hxe⟩
      · rw [h]
        unfold stepBest
        by_cases hlt : b.1 < ruleScore ql r
        · rw [if_pos hlt]
          exact Or.inr ⟨r, List.mem_cons_self r t, rfl⟩
        · rw [if_neg hlt]
          exact Or.inl rfl
      · exact Or.inr ⟨x, List.mem_cons_of_mem r hx, hxe⟩

/-- The best-rule loop lands on the first rule attaining the maximum score,
provided that score beats the initial accumulator. -/
theorem foldl_stepBest_argmax (ql : String) :
    ∀ (rs : List (List String × String × List String))
      (i : ℕ) (h : i < rs.length) (b : ℕ × String × List String),
    b.1 < ruleScore ql (rs.get ⟨i, h⟩) →
    (∀ j (hj : j < i),
      ruleScore ql (rs.get ⟨j, lt_trans hj h⟩) < ruleScore ql (rs.get ⟨i, h⟩)) →
    (∀ j (hj : j < rs.length),
      ruleScore ql (rs.get ⟨j, hj⟩) ≤ ruleScore ql (rs.get ⟨i, h⟩)) →
    rs.foldl (stepBest ql) b =
      (ruleScore ql (rs.get ⟨i, h⟩), (rs.get ⟨i, h⟩).2.1, (rs.get ⟨i, h⟩).2.2) := by
  intro rs
  induction rs with
  | nil => intro i h; exact absurd h (Nat.not_lt_zero i)
  | cons r t ih =>
      intro i h b hbi hfirst hmax
      cases i with
      | zero =>
          have hbi0 : b.1 < ruleScore ql r := hbi
          have hstep : stepBest ql b r = (ruleScore ql r, r.2.1, r.2.2) := by
            unfold stepBest
            rw [if_pos hbi0]
          rw [List.foldl_cons, hstep]
          refine foldl_stepBest_of_le ql t _ (fun x hx => ?_)
          obtain ⟨j, hjx⟩ := List.mem_iff_get.1 hx
          have hj1 : (j : ℕ) + 1 < (r :: t).length := Nat.succ_lt_succ j.isLt
          have hle : ruleScore ql (t.get j) ≤ ruleScore ql r := hmax ((j : ℕ) + 1) hj1
          rw [hjx] at hle
          exact hle
      | succ k =>
          have hk : k < t.length := Nat.lt_of_succ_lt_succ h
          have hget : (r :: t).get ⟨k + 1, h⟩ = t.get ⟨k, hk⟩ := rfl
          rw [hget] at hbi hfirst hmax ⊢
          have hr_lt : ruleScore ql r < ruleScore ql (t.get ⟨k, hk⟩) := by
            have := hfirst 0 (Nat.succ_pos k)
            simpa using this
          rw [List.foldl_cons]
          have hb' : (stepBest ql b r).1 < ruleScore ql (t.get ⟨k, hk⟩) := by
            unfold stepBest
            by_cases hlt : b.1 < ruleScore ql r
            · rw [if_pos hlt]
              exact hr_lt
            · rw [if_neg hlt]
              exact hbi
          refine ih k hk (stepBest ql b r) hb' (fun j hj => ?_) (fun j hj => ?_)
          · have := hfirst (j + 1) (Nat.succ_lt_succ hj)
            simpa using this
          · have := hmax (j + 1) (Nat.succ_lt_succ hj)
            simpa using this

/-- Appending to a non-empty string keeps it non-empty. -/
theorem append_ne_empty (a b : String) (ha : a ≠ "") : a ++ b ≠ "" := by
  intro h
  apply ha
  have hd := congrArg String.data h
  rw [String.data_append] at hd
  exact String.ext (List.append_eq_nil.1 hd).1

/-- `applyLocation` without a location is the identity. -/
theorem applyLocation_none (s : String) : applyLocation s none = s := rfl

/-- `applyLocation` with a non-empty location appends the follow-up text. -/
theorem applyLocation_some (s loc : String) (hne : loc ≠ "") :
    applyLocation s (some loc) = s ++ locationText loc := by
  show (if loc = "" then s else s ++ locationText loc) = s ++ locationText loc
  rw [if_neg hne]

/-- `applyLocation` keeps a non-empty answer non-empty. -/
theorem applyLocation_ne_empty (s : String) (loc : Option String) (hs : s ≠ "") :
    applyLocation s loc ≠ "" := by
  cases loc with
  | none => exact hs
  | some l =>
      show (if l = "" then s else s ++ locationText l) ≠ ""
      by_cases hl : l = ""
      · rw [if_pos hl]
        exact hs
      · rw [if_neg hl]
        exact append_ne_empty _ _ hs

/-- Claim C1: `respond` is total — for every query it returns a response whose
answer is non-empty and whose disclaimer is exactly the fixed constant. -/
theorem respond_total_disclaimer (q : FarmerQuery) :
    (respond q).answer ≠ "" ∧ (respond q).disclaimer = AGRICULTURAL_DISCLAIMER := by
  refine ⟨?_, rfl⟩
  show applyLocation
    (KEYWORD_RESPONSES.foldl (stepBest (strLower q.query))
      (0, defaultAnswer, defaultSources)).2.1 q.location ≠ ""
  refine applyLocation_ne_empty _ _ ?_
  rcases foldl_stepBest_payload (strLower q.query) KEYWORD_RESPONSES
      (0, defaultAnswer, defaultSources) with hp | ⟨r, hr, hp⟩
  · rw [show (KEYWORD_RESPONSES.foldl (stepBest (strLower q.query))
        (0, defaultAnswer, defaultSources)).2.1 = defaultAnswer from congrArg Prod.fst hp]
    decide
  · rw [show (KEYWORD_RESPONSES.foldl (stepBest (strLower q.query))
        (0, defaultAnswer, defaultSources)).2.1 = r.2.1 from congrArg Prod.fst hp]
    revert hr
    have hall : ∀ r ∈ KEYWORD_RESPONSES, r.2.1 ≠ "" := by decide
    exact hall r

/-- Claim C9: when no rule scores above 0, `respond` returns the built-in
default answer (with the location follow-up if any) and the default sources. -/
theorem respond_default_when_no_match (q : FarmerQuery)
    (h : ∀ r ∈ KEYWORD_RESPONSES, ruleScore (strLower q.query) r = 0) :
    respond q = ⟨applyLocation defaultAnswer q.location, defaultSources,
      q.language, AGRICULTURAL_DISCLAIMER⟩ := by
  simp only [respond]
  rw [foldl_stepBest_of_le (strLower q.query) KEYWORD_RESPONSES
    (0, defaultAnswer, defaultSources) (fun r hr => (h r hr).le)]

/-- Claim C3: `respond` returns the answer and sources of the first rule
attaining the (positive) maximum keyword-overlap score; a later rule that
merely ties never displaces it. -/
theorem respond_first_max_rule (q : FarmerQuery) (i : ℕ)
    (h : i < KEYWORD_RESPONSES.length)
    (hpos : 0 < ruleScore (strLower q.query) (KEYWORD_RESPONSES.get ⟨i, h⟩))
    (hfirst : ∀ j (hj : j < i),
      ruleScore (strLower q.query) (KEYWORD_RESPONSES.get ⟨j, lt_trans hj h⟩) <
        ruleScore (strLower q.query) (KEYWORD_RESPONSES.get ⟨i, h⟩))
    (hmax : ∀ j (hj : j < KEYWORD_RESPONSES.length),
      ruleScore (strLower q.query) (KEYWORD_RESPONSES.get ⟨j, hj⟩) ≤
        ruleScore (strLower q.query) (KEYWORD_RESPONSES.get ⟨i, h⟩)) :
    (respond q).answer =
      applyLocation (KEYWORD_RESPONSES.get ⟨i, h⟩).2.1 q.location ∧
    (respond q).sources = (KEYWORD_RESPONSES.get ⟨i, h⟩).2.2 := by
  have hfold := foldl_stepBest_argmax (strLower q.query) KEYWORD_RESPONSES i h
    (0, defaultAnswer, defaultSources) hpos hfirst hmax
  constructor
  · show applyLocation
      (KEYWORD_RESPONSES.foldl (stepBest (strLower q.query))
        (0, defaultAnswer, defaultSources)).2.1 q.location = _
    rw [hfold]
  · show (KEYWORD_RESPONSES.foldl (stepBest (strLower q.query))
      (0, defaultAnswer, defaultSources)).2.2 = _
    rw [hfold]

/-- Claim C8: with a non-empty location the returned answer is the location-free
answer followed by the fixed follow-up sentence, and it contains the location
string verbatim. -/
theorem respond_location_suffix (q : FarmerQuery) (loc : String)
    (hq : q.location = some loc) (hne : loc ≠ "") :
    (respond q).answer =
      (respond ⟨q.query, q.language, none⟩).answer ++ locationText loc ∧
    List.IsInfix loc.data (respond q).answer.data := by
  have hbase : (respond q).answer =
      (respond ⟨q.query, q.language, none⟩).answer ++ locationText loc := by
    show applyLocation
      (KEYWORD_RESPONSES.foldl (stepBest (strLower q.query))
        (0, defaultAnswer, defaultSources)).2.1 q.location = _
    rw [hq, applyLocation_some _ _ hne]
    rfl
  refine ⟨hbase, ?_⟩
  rw [hbase]
  refine ⟨(respond ⟨q.query, q.language, none⟩).answer.data ++
      " For location-specific advice in ".data,
    ", contact your local Block Agriculture Officer or Krishi Vigyan Kendra.".data, ?_⟩
  simp only [locationText, String.data_append, List.append_assoc]

/-! ## Witnesses: each theorem with a hypothesis applied at a concrete input -/

/-- Witness for C1 at the empty query. -/
theorem respond_total_disclaimer_witness :
    (respond ⟨"", "en", none⟩).answer ≠ "" ∧
    (respond ⟨"", "en", none⟩).disclaimer = AGRICULTURAL_DISCLAIMER :=
  respond_total_disclaimer ⟨"", "en", none⟩

/-- Witness for C2: Aphids and Whitefly tie on `["yellowing"]` and keep
catalogue order in the output. -/
theorem identify_score_sort_witness :
    overlapScore ["yellowing"] (RAW_PESTS.get ⟨1, by decide⟩) =
      overlapScore ["yellowing"] (RAW_PESTS.get ⟨3, by decide⟩) ∧
    0 < overlapScore ["yellowing"] (RAW_PESTS.get ⟨3, by decide⟩) ∧
    List.Sublist [RAW_PESTS.get ⟨1, by decide⟩, RAW_PESTS.get ⟨3, by decide⟩]
      (identify ["yellowing"]) :=
  ⟨by decide, by decide,
    (identify_score_sort ["yellowing"]).2.2 _ _ (by decide) (by decide) (by decide)⟩

/-- Witness for C3: "insurance" uniquely matches rule 7 (0-based), so that
rule answers. -/
theorem respond_first_max_rule_witness :
    0 < ruleScore (strLower "insurance") (KEYWORD_RESPONSES.get ⟨7, by decide⟩) ∧
    (respond ⟨"insurance", "en", none⟩).answer =
      (KEYWORD_RESPONSES.get ⟨7, by decide⟩).2.1 ∧
    (respond ⟨"insurance", "en", none⟩).sources =
      ["PMFBY (pmfby.gov.in)", "Krishi Rakshak portal"] := by
  have h := respond_first_max_rule ⟨"insurance", "en", none⟩ 7 (by decide)
    (by decide) (by decide) (by decide)
  refine ⟨by decide, ?_, ?_⟩
  · rw [h.1]
    rfl
  · rw [h.2]
    decide

/-- Witness for C5 on a one-record store with mixed-case arguments. -/
theorem price_query_filter_spec_witness :
    ((⟨"Rice", "Khanna", "Punjab", 10, 20, 15, "2026-02-21"⟩ : MandiPrice) ∈
      get_prices [⟨"Rice", "Khanna", "Punjab", 10, 20, 15, "2026-02-21"⟩] "RICE" none ∧
     strLower (⟨"Rice", "Khanna", "Punjab", 10, 20, 15, "2026-02-21"⟩ : MandiPrice).state =
       strLower "punjab") ∧
    get_prices [⟨"Rice", "Khanna", "Punjab", 10, 20, 15, "2026-02-21"⟩] "RICE" none =
      get_prices [⟨"Rice", "Khanna", "Punjab", 10, 20, 15, "2026-02-21"⟩] "rice" none := by
  constructor
  · refine price_query_filter_spec.1
      [⟨"Rice", "Khanna", "Punjab", 10, 20, 15, "2026-02-21"⟩] "RICE" "punjab"
      (by decide) _ ?_
    show _ ∈ List.mergeSort _ _
    exact List.mem_mergeSort.2 (by decide)
  · exact price_query_filter_spec.2
      [⟨"Rice", "Khanna", "Punjab", 10, 20, 15, "2026-02-21"⟩] "RICE" "rice" none (by decide)

/-- Witness for C6: unknown commodity, state, market, crop and symptoms give
empty results. -/
theorem lookup_totality_empty_witness :
    get_prices [⟨"Wheat", "Khanna", "Punjab", 10, 20, 15, "2026-02-21"⟩] "rice" none = [] ∧
    get_prices [⟨"Wheat", "Khanna", "Punjab", 10, 20, 15, "2026-02-21"⟩] "wheat" (some "Kerala") = [] ∧
    price_trend [⟨"Wheat", "Khanna", "Punjab", 10, 20, 15, "2026-02-21"⟩] "wheat" "Azadpur" = [] ∧
    price_trend [⟨"Wheat", "Khanna", "Punjab", 10, 20, 15, "2026-02-21"⟩] "rice" "Khanna" = [] ∧
    by_crop "Saffron" = [] ∧
    identify [] = [] ∧
    identify ["no-such-symptom-xyz"] = [] :=
  ⟨lookup_totality_empty.1 _ "rice" none (by decide),
   lookup_totality_empty.2.1 _ "wheat" "Kerala" (by decide) (by decide),
   lookup_totality_empty.2.2.1 _ "wheat" "Azadpur" (by decide),
   lookup_totality_empty.2.2.2.1 _ "rice" "Khanna" (by decide),
   lookup_totality_empty.2.2.2.2.1 "Saffron" (by decide),
   lookup_totality_empty.2.2.2.2.2.1,
   lookup_totality_empty.2.2.2.2.2.2 ["no-such-symptom-xyz"] (by decide)⟩

/-- Witness for C7: a negative minimum price is rejected, a record with
non-negative prices is accepted and carries them. -/
theorem mandi_price_validation_witness :
    (∃ e, mkMandiPrice "Wheat" "Khanna" "Punjab" (-5) 10 10 "2026-02-21" = .error e) ∧
    (0 ≤ (⟨"Wheat", "Khanna", "Punjab", 10, 20, 15, "2026-02-21"⟩ : MandiPrice).min_price ∧
     0 ≤ (⟨"Wheat", "Khanna", "Punjab", 10, 20, 15, "2026-02-21"⟩ : MandiPrice).max_price ∧
     0 ≤ (⟨"Wheat", "Khanna", "Punjab", 10, 20, 15, "2026-02-21"⟩ : MandiPrice).modal_price) :=
  ⟨(mandi_price_validation.1 "Wheat" "Khanna" "Punjab" (-5) 10 10 "2026-02-21").mpr
      (Or.inl (by decide)),
   mandi_price_validation.2.1 "Wheat" "Khanna" "Punjab" 10 20 15 "2026-02-21"
      ⟨"Wheat", "Khanna", "Punjab", 10, 20, 15, "2026-02-21"⟩ (by norm_num [mkMandiPrice])⟩

/-- Witness for C8 at a concrete query with location "Pune". -/
theorem respond_location_suffix_witness :
    (respond ⟨"price update", "en", some "Pune"⟩).answer =
      (respond ⟨"price update", "en", none⟩).answer ++ locationText "Pune" ∧
    List.IsInfix "Pune".data (respond ⟨"price update", "en", some "Pune"⟩).answer.data :=
  respond_location_suffix ⟨"price update", "en", some "Pune"⟩ "Pune" rfl (by decide)

/-- Witness for C9 at a query matching no keyword. -/
theorem respond_default_when_no_match_witness :
    respond ⟨"zzz", "en", none⟩ =
      ⟨applyLocation defaultAnswer none, defaultSources, "en", AGRICULTURAL_DISCLAIMER⟩ :=
  respond_default_when_no_match ⟨"zzz", "en", none⟩ (by decide)

end Kisanmitra
